import Mathlib

/-!
Verification of the pricing/ROI engine of the skin-profit dashboard
(src/streamlit_app.py) against its specification.

The numeric model uses ℚ for the app's monetary and percentage values.
UI-only concerns (widget keys, expander state, chart rendering, display
names) do not influence the derived numeric fields and are not modelled.
-/

/-- Raw per-item inputs as collected by the UI widgets
(lines 59-64 of src/streamlit_app.py): buy price, sell price,
marketplace fee percentage. -/
structure RawItem where
  buyPrice : ℚ
  sellPriceRaw : ℚ
  feeRaw : ℚ
deriving Repr, DecidableEq

/-- The derived financial fields of one row, as returned by
the row dictionary of skin_input_row (lines 77-86). -/
structure DerivedItem where
  buyPrice : ℚ
  sellPriceAdj : ℚ
  feeAdj : ℚ
  netReceived : ℚ
  profit : ℚ
  roi : ℚ
deriving Repr, DecidableEq

/-- Placeholder row used as the default for positional lookups. -/
def d0 : DerivedItem := ⟨0, 0, 0, 0, 0, 0⟩

/-- Placeholder raw item used as the default for positional lookups. -/
def r0 : RawItem := ⟨0, 0, 0⟩

/-- Embedding of skin_input_row (lines 37-86 of src/streamlit_app.py),
restricted to its numeric behaviour.  Arguments mirror the globals it
reads (reinvestment_mode, sell_modifier, fee_modifier) and its
parameters (i, the raw widget values, reinvestment_funds).  The Python
function returns the row dictionary together with net; here that is a
pair of the derived row and the net value. -/
def skin_input_row (reinvestment_mode : Bool) (sell_modifier fee_modifier : ℚ)
    (i : ℕ) (raw : RawItem) (reinvestment_funds : Option ℚ) : DerivedItem × ℚ :=
  let buy_price : ℚ :=
    match reinvestment_funds with
    | some funds => if reinvestment_mode ∧ 1 < i then funds else raw.buyPrice
    | none => raw.buyPrice
  let sell_price_adj := raw.sellPriceRaw * (1 + sell_modifier / 100)
  let fee_adj := max (raw.feeRaw + fee_modifier) 0
  let net := max (sell_price_adj * (1 - fee_adj / 100)) 0
  let profit := net - buy_price
  let roi := if buy_price > 0 then profit / buy_price * 100 else 0
  (⟨buy_price, sell_price_adj, fee_adj, net, profit, roi⟩, net)

/-- The basic-tab input loop (lines 116-123): iterate the rows in order,
threading reinvestment_funds (the previous row's net) through the fold. -/
def basic_loop (reinvestment_mode : Bool) (sell_modifier fee_modifier : ℚ) :
    List RawItem → ℕ → Option ℚ → List DerivedItem
  | [], _, _ => []
  | raw :: rest, i, funds =>
    let step := skin_input_row reinvestment_mode sell_modifier fee_modifier i raw funds
    step.1 :: basic_loop reinvestment_mode sell_modifier fee_modifier rest (i + 1) (some step.2)

/-- The full basic-tab row computation: the loop starts at i = 1 with
reinvestment_funds = None (lines 117 and 121). -/
def tab_basic_rows (reinvestment_mode : Bool) (sell_modifier fee_modifier : ℚ)
    (raws : List RawItem) : List DerivedItem :=
  basic_loop reinvestment_mode sell_modifier fee_modifier raws 1 none

/-- Running cumulative sum, as pandas Series.cumsum. -/
def cumsum : List ℚ → List ℚ
  | [] => []
  | x :: xs => x :: (cumsum xs).map (fun y => x + y)

/-- Line 126: Cumulative Money = Profit.cumsum() + Buy Price.iloc[0].
iloc[0] raises IndexError on an empty frame, modelled as none. -/
def cumulative_money (rows : List DerivedItem) : Option (List ℚ) :=
  match rows with
  | [] => none
  | first :: _ =>
    some ((cumsum (rows.map (fun r => r.profit))).map (fun c => c + first.buyPrice))

/-- Line 129: total_invested = df["Buy Price"].sum(). -/
def total_invested (rows : List DerivedItem) : ℚ :=
  (rows.map (fun r => r.buyPrice)).sum

/-- Line 130: total_money_received = df["Net Received"].sum(). -/
def total_money_received (rows : List DerivedItem) : ℚ :=
  (rows.map (fun r => r.netReceived)).sum

/-- Line 131: total_profit = total_money_received - total_invested. -/
def total_profit (rows : List DerivedItem) : ℚ :=
  total_money_received rows - total_invested rows

/-- Line 132: total_roi = total_profit / total_invested * 100 if
total_invested > 0 else 0. -/
def total_roi (rows : List DerivedItem) : ℚ :=
  if total_invested rows > 0 then total_profit rows / total_invested rows * 100 else 0

/-- Aggregate record produced by the basic tab (lines 129-132). -/
structure Totals where
  totalInvested : ℚ
  totalReceived : ℚ
  totalProfit : ℚ
  totalRoi : ℚ
deriving Repr, DecidableEq

/-- Result of the whole basic-tab computation pass. -/
structure BasicResult where
  rows : List DerivedItem
  cumulativeMoney : List ℚ
  totals : Totals
deriving Repr, DecidableEq

/-- The basic-tab pipeline in source order (lines 114-132): build the
rows, add the Cumulative Money column (which faults on an empty frame,
line 126), then compute the totals.  none models the raised fault. -/
def tab_basic (reinvestment_mode : Bool) (sell_modifier fee_modifier : ℚ)
    (raws : List RawItem) : Option BasicResult :=
  let rows := tab_basic_rows reinvestment_mode sell_modifier fee_modifier raws
  match cumulative_money rows with
  | none => none
  | some cums =>
    some ⟨rows, cums,
      ⟨total_invested rows, total_money_received rows, total_profit rows, total_roi rows⟩⟩

/-- A pandas float-series cell value: finite, an infinity, or NaN. -/
inductive PdVal where
  | fin (q : ℚ)
  | posInf
  | negInf
  | nan
deriving Repr, DecidableEq

/-- Pandas float division of series cells: x / 0 is +-infinity for
nonzero x and NaN for 0 / 0. -/
def pdDiv (p b : ℚ) : PdVal :=
  if b ≠ 0 then .fin (p / b)
  else if p > 0 then .posInf
  else if p < 0 then .negInf
  else .nan

/-- Multiplying a pandas cell by the positive scalar 100. -/
def pdMul100 : PdVal → PdVal
  | .fin q => .fin (q * 100)
  | .posInf => .posInf
  | .negInf => .negInf
  | .nan => .nan

/-- Series.fillna(0): replaces NaN by 0 and nothing else
(infinities pass through). -/
def fillna0 : PdVal → PdVal
  | .nan => .fin 0
  | v => v

/-- The authoritative columns of one edited row in the advanced tab:
Buy Price, Sell Price (already modifier-adjusted) and Fee % (already
modifier-adjusted); the derived columns are overwritten by the
recompute (lines 168-170). -/
structure EditedRow where
  buyPrice : ℚ
  sellPrice : ℚ
  feePct : ℚ
deriving Repr, DecidableEq

/-- The advanced-tab per-row recompute (lines 168-170 of
src/streamlit_app.py):
Net Received = Sell Price * (1 - Fee % / 100)  (no clamp),
Profit = Net Received - Buy Price,
ROI % = (Profit / Buy Price * 100).fillna(0)  (pandas division).
Returns (Net Received, Profit, ROI %). -/
def tab_advanced_recompute (row : EditedRow) : ℚ × ℚ × PdVal :=
  let net := row.sellPrice * (1 - row.feePct / 100)
  let profit := net - row.buyPrice
  let roi := fillna0 (pdMul100 (pdDiv profit row.buyPrice))
  (net, profit, roi)

/-- The derived row of one basic-path pricing step. -/
def basic_row (reinvestment_mode : Bool) (sell_modifier fee_modifier : ℚ)
    (i : ℕ) (raw : RawItem) (funds : Option ℚ) : DerivedItem :=
  (skin_input_row reinvestment_mode sell_modifier fee_modifier i raw funds).1

lemma skin_input_row_snd (m : Bool) (sm fm : ℚ) (i : ℕ) (raw : RawItem) (funds : Option ℚ) :
    (skin_input_row m sm fm i raw funds).2 = (skin_input_row m sm fm i raw funds).1.netReceived :=
  rfl

lemma skin_input_row_false (sm fm : ℚ) (i j : ℕ) (raw : RawItem) (funds gunds : Option ℚ) :
    skin_input_row false sm fm i raw funds = skin_input_row false sm fm j raw gunds := by
  cases funds <;> cases gunds <;> simp [skin_input_row]

lemma basic_loop_length (m : Bool) (sm fm : ℚ) :
    ∀ (raws : List RawItem) (i : ℕ) (funds : Option ℚ),
      (basic_loop m sm fm raws i funds).length = raws.length := by
  intro raws
  induction raws with
  | nil => intro i funds; rfl
  | cons raw rest ih => intro i funds; simp [basic_loop, ih]

lemma basic_loop_false_map (sm fm : ℚ) :
    ∀ (raws : List RawItem) (i : ℕ) (funds : Option ℚ),
      basic_loop false sm fm raws i funds
        = raws.map (fun raw => (skin_input_row false sm fm 0 raw none).1) := by
  intro raws
  induction raws with
  | nil => intro i funds; rfl
  | cons raw rest ih =>
    intro i funds
    simp only [basic_loop, List.map_cons, ih]
    rw [skin_input_row_false sm fm i 0 raw funds none]

lemma getD_map_lt {α β : Type} (f : α → β) (l : List α) (i : ℕ) (da : α) (db : β)
    (h : i < l.length) : (l.map f).getD i db = f (l.getD i da) := by
  rw [List.getD_eq_getElem _ _ (by simpa using h), List.getD_eq_getElem _ _ h,
    List.getElem_map]

lemma cumsum_length : ∀ l : List ℚ, (cumsum l).length = l.length := by
  intro l
  induction l with
  | nil => rfl
  | cons x xs ih => simp [cumsum, ih]

lemma cumsum_getD : ∀ (l : List ℚ) (i : ℕ), i < l.length →
    (cumsum l).getD i 0 = (l.take (i + 1)).sum := by
  intro l
  induction l with
  | nil => intro i h; simp at h
  | cons x xs ih =>
    intro i h
    cases i with
    | zero => simp [cumsum]
    | succ j =>
      have hj : j < xs.length := by simpa using h
      have hcl : j < (cumsum xs).length := by rw [cumsum_length]; exact hj
      simp only [cumsum, List.getD_cons_succ, List.take_succ_cons, List.sum_cons]
      rw [getD_map_lt (fun y => x + y) (cumsum xs) j 0 0 hcl, ih j hj]

/-- C2: every derived row satisfies the pricing formulas in order
(sellPriceAdj, feeAdj, netReceived, profit, roi), and the concrete
example buyPrice=100, sellPriceRaw=150, feeRaw=8 with both modifiers 0
yields sellPriceAdj=150, feeAdj=8, netReceived=138, profit=38, roi=38. -/
theorem c2_pricing_formulas :
    (∀ (m : Bool) (sm fm : ℚ) (i : ℕ) (raw : RawItem) (funds : Option ℚ),
      (basic_row m sm fm i raw funds).sellPriceAdj = raw.sellPriceRaw * (1 + sm / 100)
      ∧ (basic_row m sm fm i raw funds).feeAdj = max (raw.feeRaw + fm) 0
      ∧ (basic_row m sm fm i raw funds).netReceived
          = max ((basic_row m sm fm i raw funds).sellPriceAdj
              * (1 - (basic_row m sm fm i raw funds).feeAdj / 100)) 0
      ∧ (basic_row m sm fm i raw funds).profit
          = (basic_row m sm fm i raw funds).netReceived - (basic_row m sm fm i raw funds).buyPrice
      ∧ (basic_row m sm fm i raw funds).roi
          = (if (basic_row m sm fm i raw funds).buyPrice > 0
             then (basic_row m sm fm i raw funds).profit
                    / (basic_row m sm fm i raw funds).buyPrice * 100
             else 0))
    ∧ basic_row false 0 0 1 ⟨100, 150, 8⟩ none = ⟨100, 150, 8, 138, 38, 38⟩ := by
  constructor
  · intro m sm fm i raw funds
    refine ⟨rfl, rfl, rfl, rfl, rfl⟩
  · simp only [basic_row, skin_input_row, DerivedItem.mk.injEq]
    norm_num

/-- C3 counterexample: with valid inputs (buyPrice=100 ≥ 0,
sellPriceRaw=150 ≥ 0, feeRaw=100 ∈ [0,100], sellModifierPct=0 ∈ [-50,50],
feeModifierPct=10 ∈ [-10,10]) the basic path clamps netReceived to 0,
but the edit-back recomputation on that very row yields
Net Received = -15 < 0: the invariant fails on the edit-back path. -/
theorem c3_counterexample :
    ((0:ℚ) ≤ 100 ∧ (0:ℚ) ≤ 150 ∧ (0:ℚ) ≤ 100 ∧ (100:ℚ) ≤ 100
      ∧ (-50:ℚ) ≤ 0 ∧ (0:ℚ) ≤ 50 ∧ (-10:ℚ) ≤ 10 ∧ (10:ℚ) ≤ 10)
    ∧ (basic_row false 0 10 1 ⟨100, 150, 100⟩ none).netReceived = 0
    ∧ (tab_advanced_recompute
        ⟨(basic_row false 0 10 1 ⟨100, 150, 100⟩ none).buyPrice,
         (basic_row false 0 10 1 ⟨100, 150, 100⟩ none).sellPriceAdj,
         (basic_row false 0 10 1 ⟨100, 150, 100⟩ none).feeAdj⟩).1 = -15
    ∧ ¬ ((0:ℚ) ≤ -15) := by
  refine ⟨by norm_num, ?_, ?_, by norm_num⟩
  · simp only [basic_row, skin_input_row]
    norm_num
  · simp only [basic_row, skin_input_row, tab_advanced_recompute]
    norm_num

/-- C3 amended: on the basic computation path the clamps hold
unconditionally: every derived row has netReceived ≥ 0 and feeAdj ≥ 0
(the edit-back recomputation does not re-clamp and is excluded). -/
theorem c3_amended_clamping (m : Bool) (sm fm : ℚ) (i : ℕ) (raw : RawItem)
    (funds : Option ℚ) :
    0 ≤ (basic_row m sm fm i raw funds).netReceived
    ∧ 0 ≤ (basic_row m sm fm i raw funds).feeAdj := by
  constructor <;> simp [basic_row, skin_input_row]

/-- C5: the code is wrong on the advanced path.  For an advanced-tab row
with Buy Price = 0 and nonzero recomputed Profit (here Sell Price = 150,
Fee % = 8, so Profit = 138), the recomputed ROI % is +infinity
(pandas 138/0), not 0: fillna(0) only replaces the NaN from 0/0, as the
Sell Price = 0 case shows.  The basic path does return roi = 0 for the
same inputs. -/
theorem c5_roi_at_zero_buy :
    (tab_advanced_recompute ⟨0, 150, 8⟩).2.2 = PdVal.posInf
    ∧ PdVal.posInf ≠ PdVal.fin 0
    ∧ (tab_advanced_recompute ⟨0, 0, 8⟩).2.2 = PdVal.fin 0
    ∧ (basic_row false 0 0 1 ⟨0, 150, 8⟩ none).roi = 0 := by
  refine ⟨?_, by simp, ?_, ?_⟩
  · simp only [tab_advanced_recompute, pdDiv, pdMul100, fillna0]
    norm_num
  · simp only [tab_advanced_recompute, pdDiv, pdMul100, fillna0]
    norm_num
  · simp only [basic_row, skin_input_row]
    norm_num

/-- C8 counterexample: on the empty input sequence the basic-tab
pipeline faults (Buy Price iloc[0] raises IndexError at the Cumulative
Money step, line 126) instead of returning empty results with zero
totals: the pipeline result is none, not a value. -/
theorem c8_counterexample : tab_basic false 0 0 [] = none := rfl

/-- C8 amended: on the empty input sequence the row list is empty and
the aggregate totals are all 0 with totalRoi = 0, but the pipeline as
written faults at the Cumulative Money step before reaching the totals
(and the UI keeps the sequence nonempty via its minimum item count). -/
theorem c8_amended_empty (m : Bool) (sm fm : ℚ) :
    tab_basic_rows m sm fm [] = []
    ∧ total_invested [] = 0
    ∧ total_money_received [] = 0
    ∧ total_profit [] = 0
    ∧ total_roi [] = 0
    ∧ cumulative_money [] = none
    ∧ tab_basic m sm fm [] = none := by
  refine ⟨rfl, rfl, rfl, ?_, ?_, rfl, rfl⟩
  · simp [total_profit, total_money_received, total_invested]
  · simp [total_roi, total_invested]

/-- C9: the whole basic-tab computation is deterministic in its explicit
inputs: two runs with equal reinvestment flag, equal modifiers and equal
raw item sequences produce equal results (no hidden state). -/
theorem c9_determinism (m₁ m₂ : Bool) (sm₁ sm₂ fm₁ fm₂ : ℚ)
    (raws₁ raws₂ : List RawItem)
    (hm : m₁ = m₂) (hs : sm₁ = sm₂) (hf : fm₁ = fm₂) (hr : raws₁ = raws₂) :
    tab_basic m₁ sm₁ fm₁ raws₁ = tab_basic m₂ sm₂ fm₂ raws₂ := by
  rw [hm, hs, hf, hr]

/-- C9 witness: determinism at a concrete run. -/
theorem c9_determinism_witness :
    (false = false) ∧ ((0:ℚ) = 0) ∧
    tab_basic false 0 0 [⟨100, 150, 8⟩] = tab_basic false 0 0 [⟨100, 150, 8⟩] :=
  ⟨rfl, rfl, c9_determinism false false 0 0 0 0 [⟨100, 150, 8⟩] [⟨100, 150, 8⟩]
    rfl rfl rfl rfl⟩

lemma basic_row_netReceived (m : Bool) (sm fm : ℚ) (i : ℕ) (raw : RawItem)
    (funds : Option ℚ) :
    (basic_row m sm fm i raw funds).netReceived
      = max ((basic_row m sm fm i raw funds).sellPriceAdj
          * (1 - (basic_row m sm fm i raw funds).feeAdj / 100)) 0 :=
  rfl

lemma basic_row_profit (m : Bool) (sm fm : ℚ) (i : ℕ) (raw : RawItem)
    (funds : Option ℚ) :
    (basic_row m sm fm i raw funds).profit
      = (basic_row m sm fm i raw funds).netReceived
        - (basic_row m sm fm i raw funds).buyPrice :=
  rfl

lemma basic_row_roi (m : Bool) (sm fm : ℚ) (i : ℕ) (raw : RawItem)
    (funds : Option ℚ) :
    (basic_row m sm fm i raw funds).roi
      = (if (basic_row m sm fm i raw funds).buyPrice > 0
         then (basic_row m sm fm i raw funds).profit
              / (basic_row m sm fm i raw funds).buyPrice * 100
         else 0) :=
  rfl

lemma tab_advanced_recompute_def (r : EditedRow) :
    tab_advanced_recompute r
      = (r.sellPrice * (1 - r.feePct / 100),
         r.sellPrice * (1 - r.feePct / 100) - r.buyPrice,
         fillna0 (pdMul100 (pdDiv (r.sellPrice * (1 - r.feePct / 100) - r.buyPrice)
           r.buyPrice))) :=
  rfl

/-- C4 counterexample: the advanced-tab recompute is not equivalent to
the basic-path computation.  Two divergences at concrete inputs: with
feeAdj = 110 (feeRaw=100, feeModifierPct=10) the basic path clamps
netReceived to 0 while the recompute returns -15; and with buyPrice = 0
and nonzero profit the basic path returns roi = 0 while the recompute
returns +infinity. -/
theorem c4_counterexample :
    ((basic_row false 0 10 1 ⟨100, 150, 100⟩ none).netReceived = 0
      ∧ (tab_advanced_recompute
          ⟨(basic_row false 0 10 1 ⟨100, 150, 100⟩ none).buyPrice,
           (basic_row false 0 10 1 ⟨100, 150, 100⟩ none).sellPriceAdj,
           (basic_row false 0 10 1 ⟨100, 150, 100⟩ none).feeAdj⟩).1 = -15
      ∧ (-15:ℚ) ≠ 0)
    ∧ ((basic_row false 0 0 1 ⟨0, 150, 8⟩ none).roi = 0
      ∧ (tab_advanced_recompute
          ⟨(basic_row false 0 0 1 ⟨0, 150, 8⟩ none).buyPrice,
           (basic_row false 0 0 1 ⟨0, 150, 8⟩ none).sellPriceAdj,
           (basic_row false 0 0 1 ⟨0, 150, 8⟩ none).feeAdj⟩).2.2 = PdVal.posInf
      ∧ PdVal.posInf ≠ PdVal.fin 0) := by
  refine ⟨⟨?_, ?_, by norm_num⟩, ⟨?_, ?_, by simp⟩⟩
  · simp only [basic_row, skin_input_row]; norm_num
  · simp only [basic_row, skin_input_row, tab_advanced_recompute]; norm_num
  · simp only [basic_row, skin_input_row]; norm_num
  · simp only [basic_row, skin_input_row, tab_advanced_recompute, pdDiv, pdMul100, fillna0]
    norm_num

/-- C4 amended: the advanced-tab recompute applied to a basic-path row's
authoritative columns (Buy Price, adjusted Sell Price, adjusted Fee %)
reproduces that row's netReceived, profit and roi, provided the clamp is
inactive (sellPriceAdj ≥ 0 and feeAdj ≤ 100) and buyPrice > 0; outside
those conditions the two paths diverge as the counterexample shows. -/
theorem c4_advanced_equiv (m : Bool) (sm fm : ℚ) (i : ℕ) (raw : RawItem)
    (funds : Option ℚ)
    (hsell : 0 ≤ (basic_row m sm fm i raw funds).sellPriceAdj)
    (hfee : (basic_row m sm fm i raw funds).feeAdj ≤ 100)
    (hbuy : 0 < (basic_row m sm fm i raw funds).buyPrice) :
    tab_advanced_recompute
        ⟨(basic_row m sm fm i raw funds).buyPrice,
         (basic_row m sm fm i raw funds).sellPriceAdj,
         (basic_row m sm fm i raw funds).feeAdj⟩
      = ((basic_row m sm fm i raw funds).netReceived,
         (basic_row m sm fm i raw funds).profit,
         PdVal.fin (basic_row m sm fm i raw funds).roi) := by
  have hnn : 0 ≤ (basic_row m sm fm i raw funds).sellPriceAdj
      * (1 - (basic_row m sm fm i raw funds).feeAdj / 100) := by
    apply mul_nonneg hsell
    linarith
  have hnet : (basic_row m sm fm i raw funds).netReceived
      = (basic_row m sm fm i raw funds).sellPriceAdj
        * (1 - (basic_row m sm fm i raw funds).feeAdj / 100) := by
    rw [basic_row_netReceived m sm fm i raw funds]
    exact max_eq_left hnn
  have hb0 : (basic_row m sm fm i raw funds).buyPrice ≠ 0 := ne_of_gt hbuy
  rw [tab_advanced_recompute_def]
  simp only [Prod.mk.injEq]
  refine ⟨hnet.symm, ?_, ?_⟩
  · rw [basic_row_profit, hnet]
  · rw [basic_row_roi, if_pos hbuy, basic_row_profit, hnet]
    simp [pdDiv, pdMul100, fillna0, hb0]

/-- C4 witness: the equivalence at a concrete in-range row. -/
theorem c4_advanced_equiv_witness :
    0 ≤ (basic_row false 0 0 1 ⟨100, 150, 8⟩ none).sellPriceAdj
    ∧ (basic_row false 0 0 1 ⟨100, 150, 8⟩ none).feeAdj ≤ 100
    ∧ 0 < (basic_row false 0 0 1 ⟨100, 150, 8⟩ none).buyPrice
    ∧ tab_advanced_recompute
        ⟨(basic_row false 0 0 1 ⟨100, 150, 8⟩ none).buyPrice,
         (basic_row false 0 0 1 ⟨100, 150, 8⟩ none).sellPriceAdj,
         (basic_row false 0 0 1 ⟨100, 150, 8⟩ none).feeAdj⟩
      = ((basic_row false 0 0 1 ⟨100, 150, 8⟩ none).netReceived,
         (basic_row false 0 0 1 ⟨100, 150, 8⟩ none).profit,
         PdVal.fin (basic_row false 0 0 1 ⟨100, 150, 8⟩ none).roi) :=
  ⟨by simp only [basic_row, skin_input_row]; norm_num,
   by simp only [basic_row, skin_input_row]; norm_num,
   by simp only [basic_row, skin_input_row]; norm_num,
   c4_advanced_equiv false 0 0 1 ⟨100, 150, 8⟩ none
     (by simp only [basic_row, skin_input_row]; norm_num)
     (by simp only [basic_row, skin_input_row]; norm_num)
     (by simp only [basic_row, skin_input_row]; norm_num)⟩

lemma basic_loop_chain (sm fm : ℚ) :
    ∀ (raws : List RawItem) (i : ℕ) (funds : Option ℚ), 1 ≤ i →
      ∀ j, j + 1 < raws.length →
        ((basic_loop true sm fm raws i funds).getD (j + 1) d0).buyPrice
          = ((basic_loop true sm fm raws i funds).getD j d0).netReceived := by
  intro raws
  induction raws with
  | nil => intro i funds hi j hj; simp at hj
  | cons raw rest ih =>
    intro i funds hi j hj
    cases j with
    | zero =>
      cases rest with
      | nil => simp at hj
      | cons raw2 rest2 =>
        have h1i : 1 < i + 1 := by omega
        simp only [basic_loop, List.getD_cons_succ, List.getD_cons_zero]
        simp [skin_input_row, h1i]
    | succ k =>
      have hk : k + 1 < rest.length := by simpa using hj
      simp only [basic_loop, List.getD_cons_succ]
      exact ih (i + 1) (some (skin_input_row true sm fm i raw funds).2) (by omega) k hk

/-- C1: under reinvestment the fold chains buy prices: for every
position j, row j+1's buyPrice equals row j's netReceived, while the
first row's buyPrice is the raw user-entered value; with reinvestment
disabled every row uses its own raw buyPrice. -/
theorem c1_reinvestment_fold (sm fm : ℚ) (raws : List RawItem) :
    (∀ j : ℕ, j + 1 < raws.length →
      ((tab_basic_rows true sm fm raws).getD (j + 1) d0).buyPrice
        = ((tab_basic_rows true sm fm raws).getD j d0).netReceived)
    ∧ ((tab_basic_rows true sm fm raws).getD 0 d0).buyPrice = (raws.getD 0 r0).buyPrice
    ∧ (∀ j : ℕ, ((tab_basic_rows false sm fm raws).getD j d0).buyPrice
        = (raws.getD j r0).buyPrice) := by
  refine ⟨fun j hj => basic_loop_chain sm fm raws 1 none le_rfl j hj, ?_, ?_⟩
  · cases raws with
    | nil => rfl
    | cons raw rest =>
      simp only [tab_basic_rows, basic_loop, List.getD_cons_zero]
      simp [skin_input_row]
  · intro j
    rw [tab_basic_rows, basic_loop_false_map]
    rcases Nat.lt_or_ge j raws.length with h | h
    · rw [getD_map_lt _ raws j r0 d0 h]
      simp [skin_input_row]
    · rw [List.getD_eq_default, List.getD_eq_default]
      · rfl
      · exact h
      · simpa using h

/-- C1 witness: with two items and reinvestment on, the second row's
buyPrice equals the first row's netReceived. -/
theorem c1_reinvestment_fold_witness :
    0 + 1 < ([⟨100, 150, 8⟩, ⟨50, 150, 8⟩] : List RawItem).length
    ∧ ((tab_basic_rows true 0 0 [⟨100, 150, 8⟩, ⟨50, 150, 8⟩]).getD (0 + 1) d0).buyPrice
        = ((tab_basic_rows true 0 0 [⟨100, 150, 8⟩, ⟨50, 150, 8⟩]).getD 0 d0).netReceived :=
  ⟨by simp, (c1_reinvestment_fold 0 0 [⟨100, 150, 8⟩, ⟨50, 150, 8⟩]).1 0 (by simp)⟩

/-- C10: with reinvestment disabled, row j of the output depends only on
raw item j and the modifiers: two runs agreeing on item j (and the
modifiers) produce the same derived row j, whatever the other items
are. -/
theorem c10_noninterference (sm fm : ℚ) (raws₁ raws₂ : List RawItem) (j : ℕ)
    (h₁ : j < raws₁.length) (h₂ : j < raws₂.length)
    (heq : raws₁.getD j r0 = raws₂.getD j r0) :
    (tab_basic_rows false sm fm raws₁).getD j d0
      = (tab_basic_rows false sm fm raws₂).getD j d0 := by
  rw [tab_basic_rows, tab_basic_rows, basic_loop_false_map, basic_loop_false_map,
    getD_map_lt _ raws₁ j r0 d0 h₁, getD_map_lt _ raws₂ j r0 d0 h₂, heq]

/-- C10 witness: two runs agreeing only on item 0 give the same derived
row 0. -/
theorem c10_noninterference_witness :
    0 < ([⟨100, 150, 8⟩, ⟨1, 2, 3⟩] : List RawItem).length
    ∧ 0 < ([⟨100, 150, 8⟩, ⟨7, 8, 9⟩] : List RawItem).length
    ∧ ([⟨100, 150, 8⟩, ⟨1, 2, 3⟩] : List RawItem).getD 0 r0
        = ([⟨100, 150, 8⟩, ⟨7, 8, 9⟩] : List RawItem).getD 0 r0
    ∧ (tab_basic_rows false 0 0 [⟨100, 150, 8⟩, ⟨1, 2, 3⟩]).getD 0 d0
        = (tab_basic_rows false 0 0 [⟨100, 150, 8⟩, ⟨7, 8, 9⟩]).getD 0 d0 :=
  ⟨by simp, by simp, rfl,
   c10_noninterference 0 0 [⟨100, 150, 8⟩, ⟨1, 2, 3⟩] [⟨100, 150, 8⟩, ⟨7, 8, 9⟩] 0
     (by simp) (by simp) rfl⟩

/-- C7: for every nonempty derived-row list and every valid position j,
the Cumulative Money value at j equals the first row's buyPrice plus the
sum of profit over rows 0..j. -/
theorem c7_cumulative_money (rows : List DerivedItem) (j : ℕ) (hj : j < rows.length) :
    ((cumulative_money rows).getD []).getD j 0
      = (rows.getD 0 d0).buyPrice + ((rows.take (j + 1)).map (fun r => r.profit)).sum := by
  cases rows with
  | nil => simp at hj
  | cons first rest =>
    simp only [cumulative_money, Option.getD_some, List.getD_cons_zero]
    have hml : j < ((first :: rest).map (fun r => r.profit)).length := by
      rw [List.length_map]; exact hj
    have hcl : j < (cumsum ((first :: rest).map (fun r => r.profit))).length := by
      rw [cumsum_length]; exact hml
    rw [getD_map_lt _ _ j 0 0 hcl, cumsum_getD _ j hml, List.map_take]
    exact add_comm _ _

/-- C7 witness: the cumulative value at position 0 of a one-row list. -/
theorem c7_cumulative_money_witness :
    0 < ([⟨100, 150, 8, 138, 38, 38⟩] : List DerivedItem).length
    ∧ ((cumulative_money [⟨100, 150, 8, 138, 38, 38⟩]).getD []).getD 0 0
        = (([⟨100, 150, 8, 138, 38, 38⟩] : List DerivedItem).getD 0 d0).buyPrice
          + ((([⟨100, 150, 8, 138, 38, 38⟩] : List DerivedItem).take (0 + 1)).map
              (fun r => r.profit)).sum :=
  ⟨by simp, c7_cumulative_money [⟨100, 150, 8, 138, 38, 38⟩] 0 (by simp)⟩

/-- C6: whenever the basic-tab pipeline produces a result, its totals
are exactly totalInvested = sum of buyPrice, totalReceived = sum of
netReceived, totalProfit = totalReceived - totalInvested, and
totalRoi = totalProfit / totalInvested * 100 when totalInvested > 0
and 0 otherwise. -/
theorem c6_totals (m : Bool) (sm fm : ℚ) (raws : List RawItem) (res : BasicResult)
    (h : tab_basic m sm fm raws = some res) :
    res.totals.totalInvested = (res.rows.map (fun r => r.buyPrice)).sum
    ∧ res.totals.totalReceived = (res.rows.map (fun r => r.netReceived)).sum
    ∧ res.totals.totalProfit = res.totals.totalReceived - res.totals.totalInvested
    ∧ res.totals.totalRoi
        = (if res.totals.totalInvested > 0
           then res.totals.totalProfit / res.totals.totalInvested * 100 else 0) := by
  simp only [tab_basic] at h
  cases hc : cumulative_money (tab_basic_rows m sm fm raws) with
  | none => rw [hc] at h; simp at h
  | some cums =>
    rw [hc] at h
    simp only [Option.some.injEq] at h
    subst h
    exact ⟨rfl, rfl, rfl, rfl⟩

/-- C6 witness: the totals at a concrete one-item run. -/
theorem c6_totals_witness :
    tab_basic false 0 0 [⟨100, 150, 8⟩]
        = some ⟨[⟨100, 150, 8, 138, 38, 38⟩], [138], ⟨100, 138, 38, 38⟩⟩
    ∧ ((⟨[⟨100, 150, 8, 138, 38, 38⟩], [138], ⟨100, 138, 38, 38⟩⟩ :
          BasicResult).totals.totalInvested
        = ((⟨[⟨100, 150, 8, 138, 38, 38⟩], [138], ⟨100, 138, 38, 38⟩⟩ :
              BasicResult).rows.map (fun r => r.buyPrice)).sum
      ∧ (⟨[⟨100, 150, 8, 138, 38, 38⟩], [138], ⟨100, 138, 38, 38⟩⟩ :
          BasicResult).totals.totalReceived
        = ((⟨[⟨100, 150, 8, 138, 38, 38⟩], [138], ⟨100, 138, 38, 38⟩⟩ :
              BasicResult).rows.map (fun r => r.netReceived)).sum
      ∧ (⟨[⟨100, 150, 8, 138, 38, 38⟩], [138], ⟨100, 138, 38, 38⟩⟩ :
          BasicResult).totals.totalProfit
        = (⟨[⟨100, 150, 8, 138, 38, 38⟩], [138], ⟨100, 138, 38, 38⟩⟩ :
            BasicResult).totals.totalReceived
          - (⟨[⟨100, 150, 8, 138, 38, 38⟩], [138], ⟨100, 138, 38, 38⟩⟩ :
              BasicResult).totals.totalInvested
      ∧ (⟨[⟨100, 150, 8, 138, 38, 38⟩], [138], ⟨100, 138, 38, 38⟩⟩ :
          BasicResult).totals.totalRoi
        = (if (⟨[⟨100, 150, 8, 138, 38, 38⟩], [138], ⟨100, 138, 38, 38⟩⟩ :
                BasicResult).totals.totalInvested > 0
           then (⟨[⟨100, 150, 8, 138, 38, 38⟩], [138], ⟨100, 138, 38, 38⟩⟩ :
                  BasicResult).totals.totalProfit
                / (⟨[⟨100, 150, 8, 138, 38, 38⟩], [138], ⟨100, 138, 38, 38⟩⟩ :
                    BasicResult).totals.totalInvested * 100
           else 0)) := by
  have h : tab_basic false 0 0 [⟨100, 150, 8⟩]
      = some ⟨[⟨100, 150, 8, 138, 38, 38⟩], [138], ⟨100, 138, 38, 38⟩⟩ := by
    simp only [tab_basic, tab_basic_rows, basic_loop, skin_input_row, cumulative_money,
      cumsum, total_invested, total_money_received, total_profit, total_roi,
      List.map_cons, List.map_nil, List.sum_cons, List.sum_nil]
    norm_num
  exact ⟨h, c6_totals false 0 0 [⟨100, 150, 8⟩]
    ⟨[⟨100, 150, 8, 138, 38, 38⟩], [138], ⟨100, 138, 38, 38⟩⟩ h⟩
